import Mathlib

/-!
Verification development for the EzDbMigrate dependency resolver/installer
(src-tauri/src/deps.rs, lib.rs, paths.rs).

The effectful Rust code is shallowly embedded as pure Lean functions over an
explicit environment (HTTP responses keyed by URL) and an explicit package
store state (the set of directories and files created under the package
root).  Paths are lists of components relative to the PulseManager base
directory (app_data/DevPulse/bin).
-/

namespace EzDbMigrate

/-- A filesystem path, as a list of components relative to the package
store base directory. -/
abbrev Path := List String

/-- The mutable state of the package store: directories and files that have
been created under the base directory (each as a relative path). -/
structure Store where
  dirs : List Path
  files : List Path
deriving Repr, DecidableEq

/-- All nonempty initial segments of a path, e.g. for [a, b] the segments
[a] and [a, b].  Models the directories brought into existence by
fs::create_dir_all, which creates every missing ancestor. -/
def initSegsOf : List String → List Path
  | [] => []
  | a :: as => [a] :: (initSegsOf as).map (fun p => a :: p)

/-- Model of fs::create_dir_all: records the directory and all its
ancestors.  create_dir_all is idempotent, so recording duplicates is
harmless; the claims only consult membership. -/
def mkdirAll (st : Store) (p : Path) : Store :=
  { st with dirs := initSegsOf p ++ st.dirs }

/-- Model of fs::File::create plus io::copy: records the file path as
written (bodies are copied byte for byte and carry no decision, so the
model tracks paths only). -/
def writeFile (st : Store) (p : Path) : Store :=
  { st with files := p :: st.files }

/-- One entry of a zip archive, identified by its raw (unsanitized) name as
stored in the archive. -/
structure ZipEntry where
  name : String
deriving Repr, DecidableEq

/-- Whether the first list occurs at the start of the second. -/
def startsWithL : List Char → List Char → Bool
  | [], _ => true
  | _ :: _, [] => false
  | a :: as, b :: bs => a == b && startsWithL as bs

/-- str::ends_with on strings (case sensitive, exact suffix). -/
def endsWithStr (s tail : String) : Bool :=
  startsWithL tail.toList.reverse s.toList.reverse

/-- Splits a character list into components at either path separator.
The zip crate first rewrites the opposite separator to the platform one and
then walks std::path components, so both / and \\ separate components. -/
def splitSeps : List Char → List Char → List String
  | acc, [] => [String.mk acc.reverse]
  | acc, c :: rest =>
    if c = '/' ∨ c = '\\' then String.mk acc.reverse :: splitSeps [] rest
    else splitSeps (c :: acc) rest

/-- Model of zip::read::ZipFile::mangled_name (file_name_sanitized in the
zip crate): truncate the raw name at the first NUL byte, split it at path
separators, and keep only the Normal components — empty components, ".",
and ".." are dropped, which is what removes parent-directory traversal. -/
def mangledName (name : String) : List String :=
  let truncated := name.toList.takeWhile (fun c => c ≠ '\x00')
  (splitSeps [] truncated).filter (fun s => s != "" && s != "." && s != "..")

/-- Extraction of a single archive entry into root/package_id, mirroring
the loop body of PulseManager::download_and_extract: directory entries
(raw name ending in /) become create_dir_all(outpath); file entries first
create_dir_all on the parent of outpath and then write the file. -/
def extractEntry (package_id : String) (st : Store) (e : ZipEntry) : Store :=
  let outpath : Path := package_id :: mangledName e.name
  if endsWithStr e.name "/" then
    mkdirAll st outpath
  else
    writeFile (mkdirAll st outpath.dropLast) outpath

/-- The extraction loop of download_and_extract over all archive entries,
in archive order. -/
def extractAll (package_id : String) : Store → List ZipEntry → Store
  | st, [] => st
  | st, e :: es => extractAll package_id (extractEntry package_id st e) es

/-- What the downloaded bytes turn out to be when handed to
zip::ZipArchive::new: either not a valid zip archive (with the error
message), or a valid archive with its entry list. -/
inductive ZipContent where
  | notZip (e : String)
  | zipped (entries : List ZipEntry)
deriving Repr, DecidableEq

/-- Outcome of the HTTP GET for an archive URL.  download_and_extract never
checks the response status, so there is no non-2xx case: a body is a body.
`digest` is the SHA-256 of the received bytes — an attribute of the bytes
that the code could compute but never does. -/
inductive ArchiveResp where
  | netErr (e : String)
  | bodyErr (e : String)
  | bytes (digest : String) (content : ZipContent)
deriving Repr, DecidableEq

/-- Decidable equality for Except, needed so that concrete outcomes can be
evaluated by decide. -/
instance exceptDecEq {ε α : Type} [DecidableEq ε] [DecidableEq α] :
    DecidableEq (Except ε α)
  | .ok a, .ok b =>
    match decEq a b with
    | isTrue h => isTrue (by rw [h])
    | isFalse h => isFalse (by intro hh; cases hh; exact h rfl)
  | .ok _, .error _ => isFalse (by intro h; cases h)
  | .error _, .ok _ => isFalse (by intro h; cases h)
  | .error e, .error f =>
    match decEq e f with
    | isTrue h => isTrue (by rw [h])
    | isFalse h => isFalse (by intro hh; cases hh; exact h rfl)

/-- Result of download_and_extract: the returned value and the store state
after the call. -/
structure DlOutcome where
  result : Except String Unit
  store : Store
deriving Repr, DecidableEq

/-- Model of PulseManager::download_and_extract: GET the url, read the full
body, open it as a zip archive, then extract every entry into
root/package_id.  Any failure before the loop leaves the store untouched.
The digest of the bytes is never consulted (the source performs no
checksum verification). -/
def download_and_extract (archive : String → ArchiveResp) (st : Store)
    (package_id url : String) : DlOutcome :=
  match archive url with
  | .netErr e => ⟨.error e, st⟩
  | .bodyErr e => ⟨.error e, st⟩
  | .bytes _ (.notZip e) => ⟨.error e, st⟩
  | .bytes _ (.zipped entries) => ⟨.ok (), extractAll package_id st entries⟩

/-- deps.rs PulseChannel: per-channel version pin. -/
structure PulseChannel where
  version : String
  required : Bool
deriving Repr, DecidableEq

/-- deps.rs PulseRollout: advisory surfaced to the UI (no effect on the
install pipeline).  The Rust field r#type is rendered as rtype. -/
structure PulseRollout where
  id : String
  rtype : String
  title : String
  message : String
  media_url : Option String
  action_url : Option String
  min_app_version : Option String
deriving Repr, DecidableEq

/-- deps.rs PulsePackageSpec: one platform-specific downloadable artifact. -/
structure PulsePackageSpec where
  url : String
  checksum : String
  size_mb : Float
deriving Repr

/-- deps.rs PulseManifest.  The Rust HashMaps are modeled as association
lists looked up with List.lookup; manifest keys are unique platform and
channel identifiers (spec invariant), on which the two agree. -/
structure PulseManifest where
  tool : String
  channels : Option (List (String × PulseChannel))
  pulse_rollout : Option PulseRollout
  packages : List (String × PulsePackageSpec)
  message_of_the_day : Option String
deriving Repr

/-- deps.rs PulseConfig (the ResolverConfig of the spec). -/
structure PulseConfig where
  channel : String
  supabase_url : String
  supabase_key : String
deriving Repr, DecidableEq

/-- impl Default for PulseConfig. -/
def PulseConfig.default : PulseConfig :=
  { channel := "stable"
    supabase_url := "https://dcmgooupmorhqjbdaxtm.supabase.co"
    supabase_key := "" }

/-- deps.rs PulsePackage: derived view of an installed package. -/
structure PulsePackage where
  id : String
  version : String
  status : String
deriving Repr, DecidableEq

/-- Model of PulseManager::resolve: try the three candidate layouts under
root/package_id in fixed order and return the first that exists on disk.
The filesystem is abstracted as the predicate fsExists on relative paths. -/
def resolve (fsExists : Path → Bool) (package_id binary_name : String) :
    Except String Path :=
  let pkg_root : Path := [package_id]
  let candidates : List Path :=
    [pkg_root ++ [binary_name],
     pkg_root ++ ["bin", binary_name],
     pkg_root ++ ["pgsql", "bin", binary_name]]
  match candidates.find? fsExists with
  | some p => .ok p
  | none =>
    .error ("Binary " ++ binary_name ++ " not found in package " ++ package_id)

/-- Model of PulseManager::check_package: INSTALLED when pg_dump.exe
resolves, MISSING otherwise; version is a placeholder. -/
def check_package (fsExists : Path → Bool) (package_id : String) : PulsePackage :=
  match resolve fsExists package_id "pg_dump.exe" with
  | .ok _ => ⟨package_id, "detected", "INSTALLED"⟩
  | .error _ => ⟨package_id, "none", "MISSING"⟩

/-- The first row of the Supabase response, as consulted by
resolve_active_release: manifest_url and version fields read via as_str
(none when the field is absent or not a JSON string). -/
structure CPRow where
  manifest_url : Option String
  version : Option String
deriving Repr, DecidableEq

/-- Outcome of the control-plane (Supabase) query.  badStatus carries the
display string of the non-2xx status; parseErr is a body that fails to
parse as a JSON array; rows is the parsed array. -/
inductive CPResp where
  | netErr (e : String)
  | badStatus (status : String)
  | parseErr (e : String)
  | rows (rs : List CPRow)
deriving Repr, DecidableEq

/-- Outcome of the manifest fetch at a URL. -/
inductive ManifestResp where
  | netErr (e : String)
  | badStatus (status : String)
  | parseErr (e : String)
  | ok (m : PulseManifest)
deriving Repr

/-- deps.rs GitHubAsset. -/
structure GitHubAsset where
  name : String
  browser_download_url : String
  size : Nat
deriving Repr, DecidableEq

/-- deps.rs GitHubRelease. -/
structure GitHubRelease where
  tag_name : String
  assets : List GitHubAsset
deriving Repr, DecidableEq

/-- Outcome of the GitHub latest-release query. -/
inductive GHResp where
  | netErr (e : String)
  | badStatus (status : String)
  | parseErr (e : String)
  | ok (r : GitHubRelease)
deriving Repr, DecidableEq

/-- The external world as seen by one install call: the response each
endpoint would give, keyed by the request URL. -/
structure Env where
  cp : String → CPResp
  manifest : String → ManifestResp
  archive : String → ArchiveResp
  github : String → GHResp

/-- The Supabase row-query URL built by resolve_active_release. -/
def queryUrl (cfg : PulseConfig) : String :=
  cfg.supabase_url ++ "/rest/v1/pulse_releases?channel_slug=eq." ++ cfg.channel
    ++ "&is_active=eq.true&select=manifest_url,version,rollout_message&limit=1"

/-- Model of PulseManager::resolve_active_release: one control-plane query;
network error, non-2xx, parse error, empty row set, and a missing or
non-string manifest_url each produce an error; otherwise the manifest URL
of the first row. -/
def resolve_active_release (env : Env) (cfg : PulseConfig) : Except String String :=
  match env.cp (queryUrl cfg) with
  | .netErr e => .error ("Network Error: " ++ e)
  | .badStatus s => .error ("Pulse Brain Unreachable (" ++ s ++ "). Is Anon Key valid?")
  | .parseErr e => .error e
  | .rows rs =>
    match rs.head? with
    | none => .error "No active release found for this channel."
    | some active =>
      match active.manifest_url with
      | none => .error "Invalid Manifest URL"
      | some u => .ok u

/-- Model of PulseManager::fetch_manifest: one GET, success status
required, body parsed as PulseManifest. -/
def fetch_manifest (env : Env) (url : String) : Except String PulseManifest :=
  match env.manifest url with
  | .netErr e => .error e
  | .badStatus s => .error ("Manifest Unreachable (" ++ s ++ ")")
  | .parseErr e => .error e
  | .ok m => .ok m

/-- The version-resolution expression inlined in install_latest: when a
channels map is present the key looked up is the literal "stable"
(the configured channel is not consulted), defaulting to "unknown";
with no channels map the version is "legacy". -/
def select_version (channels : Option (List (String × PulseChannel))) : String :=
  match channels with
  | some chs =>
    match chs.lookup "stable" with
    | some c => c.version
    | none => "unknown"
  | none => "legacy"

/-- The hardcoded fallback manifest URL used when the control-plane tier
fails for any reason. -/
def fallbackManifestUrl : String :=
  "https://raw.githubusercontent.com/devpulse-tools/dptools-deps/main/deps/apps/ezdb/manifest.json"

/-- STEP 1 of install_latest: the manifest URL actually fetched — the
control-plane result on success, the hardcoded fallback on any error. -/
def chosenManifestUrl (env : Env) (cfg : PulseConfig) : String :=
  match resolve_active_release env cfg with
  | .ok u => u
  | .error _ => fallbackManifestUrl

/-- The platform key, hardcoded to win32-x64 in install_latest. -/
def targetOs : String := "win32-x64"

/-- Result of install_latest together with a trace of its externally
visible actions: how many control-plane queries were issued, which URLs
were fetched as manifests, which archive URLs were downloaded, and the
version string announced from the manifest (none when no manifest was
acquired). -/
structure Outcome where
  result : Except String Unit
  store : Store
  cpQueries : Nat
  manifestFetched : List String
  archiveFetched : List String
  announcedVersion : Option String
deriving Repr, DecidableEq

/-- Model of PulseManager::install_latest: resolve the manifest URL
(control plane, falling back to the hardcoded URL), fetch and parse the
manifest, announce the selected version, look up the win32-x64 package,
and download and extract its archive. -/
def install_latest (env : Env) (cfg : PulseConfig) (st : Store)
    (package_id : String) : Outcome :=
  let murl := chosenManifestUrl env cfg
  match fetch_manifest env murl with
  | .error e =>
    { result := .error e, store := st, cpQueries := 1,
      manifestFetched := [murl], archiveFetched := [], announcedVersion := none }
  | .ok manifest =>
    let version := select_version manifest.channels
    match manifest.packages.lookup targetOs with
    | none =>
      { result := .error "No package found for this OS in manifest", store := st,
        cpQueries := 1, manifestFetched := [murl], archiveFetched := [],
        announcedVersion := some version }
    | some spec =>
      let dl := download_and_extract env.archive st package_id spec.url
      { result := dl.result, store := dl.store, cpQueries := 1,
        manifestFetched := [murl], archiveFetched := [spec.url],
        announcedVersion := some version }

/-- ASCII lowercasing of a string, modeling str::to_lowercase on the ASCII
asset names the selection predicate is applied to. -/
def lowerStr (s : String) : String := String.mk (s.toList.map Char.toLower)

/-- Whether the needle occurs contiguously anywhere in the haystack,
modeling str::contains. -/
def containsSeg (needle : List Char) : List Char → Bool
  | [] => needle.isEmpty
  | c :: rest => startsWithL needle (c :: rest) || containsSeg needle rest

/-- str::contains on strings. -/
def containsStr (hay needle : String) : Bool := containsSeg needle.toList hay.toList

/-- The asset-selection predicate of install_from_github: the lowercased
name contains "windows", and the raw name ends with ".zip" (the
ends_with test is on the original name, hence case sensitive). -/
def assetMatches (a : GitHubAsset) : Bool :=
  containsStr (lowerStr a.name) "windows" && endsWithStr a.name ".zip"

/-- The GitHub latest-release URL built by install_from_github. -/
def ghLatestUrl (repo_owner repo_name : String) : String :=
  "https://api.github.com/repos/" ++ repo_owner ++ "/" ++ repo_name ++ "/releases/latest"

/-- Result of install_from_github with the trace of archive downloads. -/
structure GhOutcome where
  result : Except String Unit
  store : Store
  archiveFetched : List String
deriving Repr, DecidableEq

/-- Model of PulseManager::install_from_github: query the latest release,
pick the first asset satisfying assetMatches (error when none), and
download and extract it. -/
def install_from_github (env : Env) (st : Store)
    (package_id repo_owner repo_name : String) : GhOutcome :=
  match env.github (ghLatestUrl repo_owner repo_name) with
  | .netErr e => ⟨.error e, st, []⟩
  | .badStatus s => ⟨.error ("GitHub API Error: " ++ s), st, []⟩
  | .parseErr e => ⟨.error e, st, []⟩
  | .ok release =>
    match release.assets.find? assetMatches with
    | none => ⟨.error "No windows compatible asset found in release", st, []⟩
    | some asset =>
      let dl := download_and_extract env.archive st package_id asset.browser_download_url
      ⟨dl.result, dl.store, [asset.browser_download_url]⟩

/-- JSON values, as far as the config file schema needs them.  The file
text itself is abstracted away: a file holding well-formed JSON is
represented by the value that serde_json would parse from it. -/
inductive Json where
  | str (s : String)
  | num (n : Int)
  | null
  | obj (fields : List (String × Json))

/-- The content of the persisted config file: either text that fails the
serde_json parse (malformed, carrying the parser error message), or text
that parses to the JSON value j. -/
inductive FileData where
  | malformed (errMsg : String)
  | json (j : Json)

/-- Reads a required string field of a JSON object the way the serde
derive for PulseConfig does: the field must be present and be a JSON
string; unknown fields elsewhere in the object are ignored. -/
def getStrField (fields : List (String × Json)) (key : String) : Option String :=
  match fields.lookup key with
  | some (Json.str s) => some s
  | _ => none

/-- serde_json deserialization of PulseConfig from a JSON value: an object
with string fields channel, supabase_url and supabase_key; anything else
is a schema error (none). -/
def configFromJson : Json → Option PulseConfig
  | Json.obj fields =>
    match getStrField fields "channel", getStrField fields "supabase_url",
        getStrField fields "supabase_key" with
    | some c, some u, some k => some ⟨c, u, k⟩
    | _, _, _ => none
  | _ => none

/-- serde_json serialization of PulseConfig (to_string_pretty), at the
JSON-value level: an object with the three string fields in declaration
order. -/
def configToJson (cfg : PulseConfig) : Json :=
  Json.obj
    [("channel", Json.str cfg.channel),
     ("supabase_url", Json.str cfg.supabase_url),
     ("supabase_key", Json.str cfg.supabase_key)]

/-- Model of the get_config Tauri command (lib.rs): when the file is
absent, built-in defaults are returned (and nothing is written); when
present, the body is parsed and any parse or schema failure is returned
as an error. -/
def get_config (file : Option FileData) : Except String PulseConfig :=
  match file with
  | none => .ok PulseConfig.default
  | some (.malformed e) => .error e
  | some (.json j) =>
    match configFromJson j with
    | some c => .ok c
    | none => .error "invalid type: config JSON does not match PulseConfig"

/-- Model of the save_config Tauri command (lib.rs): serialize the given
config and overwrite the persisted file (parent directories are created,
which the store model does not track). -/
def save_config (_file : Option FileData) (cfg : PulseConfig) : Option FileData :=
  some (FileData.json (configToJson cfg))

/-- The config-loading part of PulseManager::new (deps.rs): when the file
is absent, write and return the defaults; when present, parse with
unwrap_or_default, so malformed text or a schema mismatch yields the
defaults without touching the file.  Returns the loaded config and the
file content afterwards. -/
def pulse_new_load_config (file : Option FileData) : PulseConfig × Option FileData :=
  match file with
  | none =>
    (PulseConfig.default, some (FileData.json (configToJson PulseConfig.default)))
  | some (.malformed _) => (PulseConfig.default, file)
  | some (.json j) => ((configFromJson j).getD PulseConfig.default, file)

/-- Version selection as the claim words it (for comparison with
select_version).  Modelled from the claim: look up the configured channel
in the channels map; a missing entry yields "unknown", a missing map
yields "legacy". -/
def select_version_spec (channel : String)
    (channels : Option (List (String × PulseChannel))) : String :=
  match channels with
  | some chs =>
    match chs.lookup channel with
    | some c => c.version
    | none => "unknown"
  | none => "legacy"

/-! ## Helper lemmas about the store and extraction -/

/-- Every member of initSegsOf l starts with the head of l. -/
lemma head?_mem_initSegsOf {q : Path} {l : List String} (h : q ∈ initSegsOf l) :
    q.head? = l.head? := by
  induction l with
  | nil => simp [initSegsOf] at h
  | cons a as _ =>
    simp only [initSegsOf, List.mem_cons, List.mem_map] at h
    rcases h with h | ⟨p, _, h⟩
    · rw [h]; rfl
    · rw [← h]; rfl

/-- Every member of the initial segments of the parent of a :: l starts
with a. -/
lemma head?_mem_initSegsOf_dropLast {q : Path} {a : String} {l : List String}
    (h : q ∈ initSegsOf ((a :: l).dropLast)) : q.head? = some a := by
  cases l with
  | nil => simp [initSegsOf] at h
  | cons b bs =>
    have hd := head?_mem_initSegsOf h
    simpa [List.dropLast] using hd

/-- A file present after extracting one entry into root/package_id was
either already present or lies under package_id. -/
lemma extractEntry_files_under {pid : String} {st : Store} {e : ZipEntry} {p : Path}
    (h : p ∈ (extractEntry pid st e).files) :
    p ∈ st.files ∨ p.head? = some pid := by
  simp only [extractEntry] at h
  split at h
  · exact Or.inl h
  · simp only [writeFile, mkdirAll, List.mem_cons] at h
    rcases h with h | h
    · right; rw [h]; rfl
    · exact Or.inl h

/-- A directory present after extracting one entry into root/package_id was
either already present or lies under package_id. -/
lemma extractEntry_dirs_under {pid : String} {st : Store} {e : ZipEntry} {p : Path}
    (h : p ∈ (extractEntry pid st e).dirs) :
    p ∈ st.dirs ∨ p.head? = some pid := by
  simp only [extractEntry] at h
  split at h
  · simp only [mkdirAll, List.mem_append] at h
    rcases h with h | h
    · right; rw [head?_mem_initSegsOf h]; rfl
    · exact Or.inl h
  · simp only [writeFile, mkdirAll, List.mem_append] at h
    rcases h with h | h
    · exact Or.inr (head?_mem_initSegsOf_dropLast h)
    · exact Or.inl h

/-- A file present after the whole extraction loop was either already
present or lies under package_id. -/
lemma extractAll_files_under {pid : String} {entries : List ZipEntry} :
    ∀ {st : Store} {p : Path}, p ∈ (extractAll pid st entries).files →
      p ∈ st.files ∨ p.head? = some pid := by
  induction entries with
  | nil => intro st p h; exact Or.inl h
  | cons e es ih =>
    intro st p h
    rcases ih h with h1 | h1
    · exact extractEntry_files_under h1
    · exact Or.inr h1

/-- A directory present after the whole extraction loop was either already
present or lies under package_id. -/
lemma extractAll_dirs_under {pid : String} {entries : List ZipEntry} :
    ∀ {st : Store} {p : Path}, p ∈ (extractAll pid st entries).dirs →
      p ∈ st.dirs ∨ p.head? = some pid := by
  induction entries with
  | nil => intro st p h; exact Or.inl h
  | cons e es ih =>
    intro st p h
    rcases ih h with h1 | h1
    · exact extractEntry_dirs_under h1
    · exact Or.inr h1

/-! ## Claim C2 -/

/-- Claim C2, amended part: every file or directory present in the store
after download_and_extract was either already present before the call or
lies under root/package_id — extraction never writes any path outside the
package store root, because every entry name is sanitized by mangled_name
before being joined to the target directory. -/
theorem c2_extraction_stays_under_root (archive : String → ArchiveResp)
    (st : Store) (pid url : String) (p : Path) :
    (p ∈ (download_and_extract archive st pid url).store.files →
      p ∈ st.files ∨ p.head? = some pid) ∧
    (p ∈ (download_and_extract archive st pid url).store.dirs →
      p ∈ st.dirs ∨ p.head? = some pid) := by
  unfold download_and_extract
  cases harch : archive url with
  | netErr e => exact ⟨Or.inl, Or.inl⟩
  | bodyErr e => exact ⟨Or.inl, Or.inl⟩
  | bytes d content =>
    cases content with
    | notZip e => exact ⟨Or.inl, Or.inl⟩
    | zipped entries =>
      exact ⟨fun h => extractAll_files_under h, fun h => extractAll_dirs_under h⟩

/-- Witness for claim C2: extracting an archive whose only entry is named
../../evil writes the file pkg/evil, and that path satisfies the
containment conclusion (it lies under the package root). -/
theorem c2_extraction_stays_under_root_witness :
    ["pkg", "evil"] ∈
      (download_and_extract (fun _ => ArchiveResp.bytes "d" (.zipped [⟨"../../evil"⟩]))
        ⟨[], []⟩ "pkg" "https://u").store.files ∧
    (["pkg", "evil"] ∈ (⟨[], []⟩ : Store).files ∨
      (["pkg", "evil"] : Path).head? = some "pkg") :=
  ⟨by decide,
   (c2_extraction_stays_under_root
      (fun _ => ArchiveResp.bytes "d" (.zipped [⟨"../../evil"⟩]))
      ⟨[], []⟩ "pkg" "https://u" ["pkg", "evil"]).1 (by decide)⟩

/-- Counterexample to claim C2 as stated: an archive entry named
../../evil does not raise any PathTraversal error — extraction returns ok
and the entry is written (at its sanitized path pkg/evil inside the
root), rather than nothing being written for that entry. -/
theorem c2_counterexample_traversal_entry_is_written :
    download_and_extract (fun _ => ArchiveResp.bytes "d" (.zipped [⟨"../../evil"⟩]))
      ⟨[], []⟩ "pkg" "https://u" =
    ⟨.ok (), ⟨[["pkg"]], [["pkg", "evil"]]⟩⟩ := by decide

/-! ## Claim C10 -/

/-- Claim C10: when the archive download fails with a network error, when
reading the body fails, or when the downloaded bytes do not parse as a
valid zip archive, download_and_extract returns that error and the package
store is exactly as it was — no file or directory is created or modified
before extraction begins. -/
theorem c10_store_unchanged_on_predownload_failure
    (archive : String → ArchiveResp) (st : Store) (pid url : String) :
    (∀ e, archive url = .netErr e →
      download_and_extract archive st pid url = ⟨.error e, st⟩) ∧
    (∀ e, archive url = .bodyErr e →
      download_and_extract archive st pid url = ⟨.error e, st⟩) ∧
    (∀ d e, archive url = .bytes d (.notZip e) →
      download_and_extract archive st pid url = ⟨.error e, st⟩) := by
  refine ⟨fun e h => ?_, fun e h => ?_, fun d e h => ?_⟩ <;>
    simp [download_and_extract, h]

/-- Witness for claim C10: a download that fails with a network error
leaves the empty store empty and returns the error. -/
theorem c10_store_unchanged_on_predownload_failure_witness :
    download_and_extract (fun _ => ArchiveResp.netErr "connection reset")
      ⟨[], []⟩ "pkg" "https://u" = ⟨.error "connection reset", ⟨[], []⟩⟩ :=
  (c10_store_unchanged_on_predownload_failure
    (fun _ => ArchiveResp.netErr "connection reset")
    ⟨[], []⟩ "pkg" "https://u").1 "connection reset" rfl

/-! ## Claim C1 -/

/-- A manifest whose win32-x64 package spec carries a checksum that does
not match the digest of the archive actually served at its URL. -/
def tamperedSpec : PulsePackageSpec :=
  { url := "https://host/pkg.zip", checksum := "1111beef", size_mb := 1.0 }

/-- The manifest carrying tamperedSpec. -/
def tamperedManifest : PulseManifest :=
  { tool := "pg", channels := none, pulse_rollout := none,
    packages := [("win32-x64", tamperedSpec)], message_of_the_day := none }

/-- An environment in which the control plane resolves to a manifest URL,
the manifest is tamperedManifest, and the archive served at the package
URL has digest 2222cafe — different from the manifest checksum 1111beef. -/
def tamperedEnv : Env :=
  { cp := fun _ => .rows [⟨some "https://host/manifest.json", some "1.0"⟩]
    manifest := fun u => if u = "https://host/manifest.json" then .ok tamperedManifest
      else .netErr "unreachable"
    archive := fun u => if u = "https://host/pkg.zip" then
        .bytes "2222cafe" (.zipped [⟨"bin/"⟩, ⟨"bin/tool.exe"⟩])
      else .netErr "unreachable"
    github := fun _ => .netErr "offline" }

/-- Claim C1 (code bug): the installer never verifies the downloaded
archive digest against PackageSpec.checksum.  With a tampered checksum
(archive digest 2222cafe, manifest checksum 1111beef) the install does not
fail with ChecksumMismatch: it succeeds and writes files into the package
store. -/
theorem c1_install_ignores_tampered_checksum :
    tamperedEnv.archive tamperedSpec.url =
      .bytes "2222cafe" (.zipped [⟨"bin/"⟩, ⟨"bin/tool.exe"⟩]) ∧
    tamperedSpec.checksum ≠ "2222cafe" ∧
    (install_latest tamperedEnv PulseConfig.default ⟨[], []⟩ "postgres-15").result =
      .ok () ∧
    ["postgres-15", "bin", "tool.exe"] ∈
      (install_latest tamperedEnv PulseConfig.default ⟨[], []⟩ "postgres-15").store.files := by
  refine ⟨by decide, by decide, by decide, by decide⟩

/-! ## Claims about the resolver pipeline -/

/-- install_latest performs exactly one manifest fetch, at the URL chosen
by the control-plane tier (or its fallback). -/
lemma install_latest_manifestFetched (env : Env) (cfg : PulseConfig)
    (st : Store) (pid : String) :
    (install_latest env cfg st pid).manifestFetched = [chosenManifestUrl env cfg] := by
  simp only [install_latest]
  split
  · rfl
  · split <;> rfl

/-- install_latest issues exactly one control-plane query. -/
lemma install_latest_cpQueries (env : Env) (cfg : PulseConfig)
    (st : Store) (pid : String) :
    (install_latest env cfg st pid).cpQueries = 1 := by
  simp only [install_latest]
  split
  · rfl
  · split <;> rfl

/-- Claim C3, amended: the version-selection expression never raises an
error; with no channels map it yields "legacy"; with a channels map it
looks up the fixed key "stable" (not the configured channel), yielding
"unknown" when that entry is absent and the version of the stable entry
otherwise. -/
theorem c3_select_version_total_stable_lookup
    (channels : Option (List (String × PulseChannel))) :
    (channels = none → select_version channels = "legacy") ∧
    (∀ chs, channels = some chs → chs.lookup "stable" = none →
      select_version channels = "unknown") ∧
    (∀ chs c, channels = some chs → chs.lookup "stable" = some c →
      select_version channels = c.version) := by
  refine ⟨fun h => ?_, fun chs h hl => ?_, fun chs c h hl => ?_⟩
  · subst h; rfl
  · subst h; simp [select_version, hl]
  · subst h; simp [select_version, hl]

/-- Witness for claim C3: the three cases of the amended statement at
concrete channel maps. -/
theorem c3_select_version_total_stable_lookup_witness :
    select_version none = "legacy" ∧
    select_version (some []) = "unknown" ∧
    select_version (some [("stable", ⟨"1.2", true⟩)]) = "1.2" :=
  ⟨(c3_select_version_total_stable_lookup none).1 rfl,
   (c3_select_version_total_stable_lookup (some [])).2.1 [] rfl rfl,
   (c3_select_version_total_stable_lookup (some [("stable", ⟨"1.2", true⟩)])).2.2
     [("stable", ⟨"1.2", true⟩)] ⟨"1.2", true⟩ rfl (by decide)⟩

/-- Counterexample to claim C3 as stated: with the configured channel
insider and a channels map containing only an insider entry, the claim
predicts that entry's version (2.0), but the code looks up the literal
"stable" and returns "unknown". -/
theorem c3_counterexample_configured_channel_ignored :
    select_version (some [("insider", ⟨"2.0", false⟩)]) = "unknown" ∧
    select_version_spec "insider" (some [("insider", ⟨"2.0", false⟩)]) = "2.0" ∧
    ("unknown" : String) ≠ "2.0" := by
  refine ⟨by decide, by decide, by decide⟩

/-- Claim C4: when the manifest acquired by install_latest has no packages
entry for the platform key win32-x64, the install fails with the
unsupported-platform error and no archive download is performed. -/
theorem c4_unsupported_platform_no_download (env : Env) (cfg : PulseConfig)
    (st : Store) (pid : String) (m : PulseManifest)
    (hm : fetch_manifest env (chosenManifestUrl env cfg) = .ok m)
    (hp : m.packages.lookup targetOs = none) :
    (install_latest env cfg st pid).result =
      .error "No package found for this OS in manifest" ∧
    (install_latest env cfg st pid).archiveFetched = [] := by
  refine ⟨?_, ?_⟩ <;> simp [install_latest, hm, hp]

/-- The manifest served by the C4 witness environment: no package entry
for any platform. -/
def noPlatformManifest : PulseManifest :=
  { tool := "pg", channels := none, pulse_rollout := none,
    packages := [], message_of_the_day := none }

/-- The C4 witness environment: the control plane has no active release,
and the (fallback) manifest fetch yields noPlatformManifest. -/
def noPlatformEnv : Env :=
  { cp := fun _ => .rows []
    manifest := fun _ => .ok noPlatformManifest
    archive := fun _ => .netErr "unreachable"
    github := fun _ => .netErr "offline" }

/-- Witness for claim C4: with a manifest lacking win32-x64, install_latest
errors and downloads nothing. -/
theorem c4_unsupported_platform_no_download_witness :
    (install_latest noPlatformEnv PulseConfig.default ⟨[], []⟩ "postgres-15").result =
      .error "No package found for this OS in manifest" ∧
    (install_latest noPlatformEnv PulseConfig.default ⟨[], []⟩ "postgres-15").archiveFetched = [] :=
  c4_unsupported_platform_no_download noPlatformEnv PulseConfig.default ⟨[], []⟩
    "postgres-15" noPlatformManifest rfl rfl

/-- Claim C5: resolve tries exactly the three candidate layouts in fixed
priority order — root/package_id/binary_name, then
root/package_id/bin/binary_name, then root/package_id/pgsql/bin/binary_name
— returning the first that exists and the binary-not-found error when none
exists. -/
theorem c5_resolve_first_existing_of_three (fs : Path → Bool) (pid b : String) :
    resolve fs pid b =
      (if fs [pid, b] = true then .ok [pid, b]
       else if fs [pid, "bin", b] = true then .ok [pid, "bin", b]
       else if fs [pid, "pgsql", "bin", b] = true then .ok [pid, "pgsql", "bin", b]
       else .error ("Binary " ++ b ++ " not found in package " ++ pid)) := by
  cases h1 : fs [pid, b] <;> cases h2 : fs [pid, "bin", b] <;>
    cases h3 : fs [pid, "pgsql", "bin", b] <;>
    simp [resolve, List.find?, h1, h2, h3]

/-- Claim C6: a control-plane tier that fails — in particular one whose
query returns zero rows — does not abort the install: the chosen manifest
URL is the hardcoded static fallback, the single manifest fetch uses
exactly that URL, and the control plane is queried exactly once (never
re-queried). -/
theorem c6_cp_failure_falls_back_to_static_url (env : Env) (cfg : PulseConfig)
    (st : Store) (pid : String) :
    (env.cp (queryUrl cfg) = .rows [] →
      resolve_active_release env cfg = .error "No active release found for this channel.") ∧
    (∀ e, resolve_active_release env cfg = .error e →
      chosenManifestUrl env cfg = fallbackManifestUrl ∧
      (install_latest env cfg st pid).manifestFetched = [fallbackManifestUrl] ∧
      (install_latest env cfg st pid).cpQueries = 1) := by
  constructor
  · intro h; simp [resolve_active_release, h]
  · intro e he
    have hc : chosenManifestUrl env cfg = fallbackManifestUrl := by
      simp [chosenManifestUrl, he]
    refine ⟨hc, ?_, install_latest_cpQueries env cfg st pid⟩
    rw [install_latest_manifestFetched, hc]

/-- The C6 witness environment: the control-plane query succeeds but
returns zero rows. -/
def emptyCpEnv : Env :=
  { cp := fun _ => .rows []
    manifest := fun _ => .netErr "depot down"
    archive := fun _ => .netErr "unreachable"
    github := fun _ => .netErr "offline" }

/-- Witness for claim C6: with zero control-plane rows the resolver errs
internally, the chosen URL is the fallback, the manifest fetch hits
exactly that URL, and only one control-plane query happens. -/
theorem c6_cp_failure_falls_back_to_static_url_witness :
    resolve_active_release emptyCpEnv PulseConfig.default =
      .error "No active release found for this channel." ∧
    chosenManifestUrl emptyCpEnv PulseConfig.default = fallbackManifestUrl ∧
    (install_latest emptyCpEnv PulseConfig.default ⟨[], []⟩ "postgres-15").manifestFetched =
      [fallbackManifestUrl] ∧
    (install_latest emptyCpEnv PulseConfig.default ⟨[], []⟩ "postgres-15").cpQueries = 1 := by
  have h := (c6_cp_failure_falls_back_to_static_url emptyCpEnv PulseConfig.default
    ⟨[], []⟩ "postgres-15").1 rfl
  exact ⟨h, (c6_cp_failure_falls_back_to_static_url emptyCpEnv PulseConfig.default
    ⟨[], []⟩ "postgres-15").2 _ h⟩

/-! ## Claims about the config store -/

/-- Claim C7: saving any config value and then loading returns exactly
that value — save_config followed by get_config round-trips. -/
theorem c7_config_roundtrip (file : Option FileData) (cfg : PulseConfig) :
    get_config (save_config file cfg) = .ok cfg := rfl

/-- Claim C8, amended: the config load in PulseManager::new never fails —
an absent file yields the defaults and writes them, malformed content
yields the defaults leaving the file alone — and the get_config command
also yields the defaults when the file is absent (without writing them). -/
theorem c8_manager_config_load_is_lenient (file : Option FileData) :
    (file = none → pulse_new_load_config file =
      (PulseConfig.default, some (FileData.json (configToJson PulseConfig.default)))) ∧
    (∀ e, file = some (.malformed e) →
      pulse_new_load_config file = (PulseConfig.default, file)) ∧
    get_config none = .ok PulseConfig.default := by
  refine ⟨fun h => ?_, fun e h => ?_, rfl⟩ <;> subst h <;> rfl

/-- Witness for claim C8: the amended statement at an absent file and at a
concrete malformed file. -/
theorem c8_manager_config_load_is_lenient_witness :
    pulse_new_load_config none =
      (PulseConfig.default, some (FileData.json (configToJson PulseConfig.default))) ∧
    pulse_new_load_config (some (FileData.malformed "expected value at line 1")) =
      (PulseConfig.default, some (FileData.malformed "expected value at line 1")) :=
  ⟨(c8_manager_config_load_is_lenient none).1 rfl,
   (c8_manager_config_load_is_lenient (some (FileData.malformed "expected value at line 1"))).2.1
     "expected value at line 1" rfl⟩

/-- Counterexample to claim C8 as stated: the get_config command does not
fall back to defaults on malformed JSON — it returns the parse error. -/
theorem c8_counterexample_get_config_errors_on_malformed :
    get_config (some (FileData.malformed "expected value at line 1")) =
      .error "expected value at line 1" ∧
    Except.error "expected value at line 1" ≠
      (Except.ok PulseConfig.default : Except String PulseConfig) := by
  exact ⟨rfl, by decide⟩

/-! ## Claim C9 -/

/-- Claim C9: when the latest-release query parses, the selected asset is
one whose lowercased name contains "windows" and whose name ends with
".zip", and its download URL is the only archive fetched; when no asset
qualifies, install_from_github fails with the no-matching-asset error and
downloads nothing. -/
theorem c9_asset_selection_predicate_or_no_download (env : Env) (st : Store)
    (pid owner repo : String) (rel : GitHubRelease)
    (hr : env.github (ghLatestUrl owner repo) = .ok rel) :
    (rel.assets.find? assetMatches = none →
      install_from_github env st pid owner repo =
        ⟨.error "No windows compatible asset found in release", st, []⟩) ∧
    (∀ a, rel.assets.find? assetMatches = some a →
      containsStr (lowerStr a.name) "windows" = true ∧
      endsWithStr a.name ".zip" = true ∧
      (install_from_github env st pid owner repo).archiveFetched =
        [a.browser_download_url]) := by
  constructor
  · intro hn; simp [install_from_github, hr, hn]
  · intro a ha
    have hm : assetMatches a = true := List.find?_some ha
    rw [assetMatches, Bool.and_eq_true] at hm
    refine ⟨hm.1, hm.2, ?_⟩
    simp [install_from_github, hr, ha]

/-- The release served by the C9 witness environment: its only asset is a
linux tarball, so nothing matches the windows zip predicate. -/
def linuxOnlyRelease : GitHubRelease :=
  { tag_name := "v1.0", assets := [⟨"tool-linux-x64.tar.gz", "https://gh/dl", 5⟩] }

/-- The C9 witness environment. -/
def linuxOnlyEnv : Env :=
  { cp := fun _ => .rows []
    manifest := fun _ => .netErr "depot down"
    archive := fun _ => .netErr "unreachable"
    github := fun _ => .ok linuxOnlyRelease }

/-- Witness for claim C9: a release with no windows zip asset makes
install_from_github fail with the no-matching-asset error and fetch no
archive. -/
theorem c9_asset_selection_predicate_or_no_download_witness :
    install_from_github linuxOnlyEnv ⟨[], []⟩ "postgres-15" "devpulse-tools" "drivers" =
      ⟨.error "No windows compatible asset found in release", ⟨[], []⟩, []⟩ :=
  (c9_asset_selection_predicate_or_no_download linuxOnlyEnv ⟨[], []⟩ "postgres-15"
    "devpulse-tools" "drivers" linuxOnlyRelease rfl).1 (by decide)

end EzDbMigrate
